import Mathlib

/-!
Shallow embedding of the QR-menu carbon-footprint core
(`generate_qr_menu.py`): the `CarbonCalculator.estimate_carbon_footprint`
keyword estimator, `QRMenuSystem.add_menu_item`, and the statistics blocks
of `QRMenuSystem.generate_html_menu` and `QRMenuSystem.generate_report`.

Python floats are modelled by exact rationals (all constants in the source
are short decimal literals, and no property below depends on a float
rounding tie), Python substring tests by decidable list-infix tests on the
lowercased character sequence, and the `ZeroDivisionError` a Python `/` can
raise by an `Except` value.
-/

namespace QRMenu

/-- Mirrors `dish_name.lower()` (line 49): the character sequence of the
dish name with every character lowercased, used for keyword matching. -/
def lowerChars (s : String) : List Char := s.toList.map Char.toLower

/-- Mirrors the Python membership test `kw in dish_lower`: does the keyword
occur as a contiguous substring of the lowercased character sequence? -/
def containsKw (hay : List Char) (needle : String) : Bool :=
  decide (needle.toList <:+: hay)

/-- Mirrors `any(kw in dish_lower for kw in kws)`. -/
def containsAny (hay : List Char) (kws : List String) : Bool :=
  kws.any (containsKw hay)

/-- Result dictionary of `estimate_carbon_footprint` (lines 122-127). -/
structure EstimationResult where
  ingredients : List String
  cooking_methods : List String
  total_carbon : ℚ
  is_eco_friendly : Bool
deriving Repr, DecidableEq

/-- Protein detection if/elif chain (lines 56-70): first matching group
wins, appending one tag and one mass-fraction contribution. -/
def proteinDetect (dl : List Char) : List String × ℚ :=
  if containsAny dl ["beef", "steak", "hamburger"] then (["beef"], 27.0 * 0.25)
  else if containsAny dl ["chicken", "tavuk"] then (["chicken"], 6.9 * 0.2)
  else if containsAny dl ["fish", "salmon", "balık"] then (["fish"], 6.1 * 0.18)
  else if containsAny dl ["pork", "bacon", "ham"] then (["pork"], 12.1 * 0.2)
  else if containsAny dl ["lamb", "kuzu"] then (["lamb"], 39.2 * 0.2)
  else ([], 0)

/-- Carbs detection if/elif chain (lines 73-84). -/
def carbsDetect (dl : List Char) : List String × ℚ :=
  if containsAny dl ["pasta", "spaghetti", "makarna"] then (["pasta"], 0.9 * 0.1)
  else if containsAny dl ["rice", "pilav", "risotto"] then (["rice"], 2.7 * 0.1)
  else if containsAny dl ["sandwich", "burger", "bread"] then (["bread"], 0.9 * 0.08)
  else if containsAny dl ["quinoa"] then (["quinoa"], 1.5 * 0.1)
  else ([], 0)

/-- Vegetables block (lines 87-92): a vegetables tag is appended on both
branches, with 200g mass if a salad keyword is present, else 100g. -/
def vegetablesDetect (dl : List Char) : List String × ℚ :=
  if containsAny dl ["salad", "salata", "vegetables"] then (["vegetables"], 2.0 * 0.2)
  else (["vegetables"], 2.0 * 0.1)

/-- Dairy block (lines 95-97): optional cheese tag. -/
def dairyDetect (dl : List Char) : List String × ℚ :=
  if containsAny dl ["cheese", "peynir", "parmesan"] then (["cheese"], 13.5 * 0.05)
  else ([], 0)

/-- Cooking-method if/elif/else chain (lines 99-118): exactly one method tag
is appended; `cooking_time` defaults to 20 minutes. -/
def cookingDetect (dl : List Char) : List String × ℚ :=
  let cooking_time : ℚ := 20
  if containsAny dl ["grilled", "ızgara", "grill"] then (["grill"], 3.5 * (cooking_time / 60))
  else if containsAny dl ["fried", "kızartma"] then (["deep_fry"], 4.2 * (15 / 60))
  else if containsAny dl ["baked", "roasted", "fırın"] then (["oven"], 2.1 * (30 / 60))
  else if containsAny dl ["salad", "fresh", "raw"] then (["raw"], (0.0 : ℚ))
  else (["stovetop"], 1.8 * (cooking_time / 60))

/-- Mirrors Python `round(q, 2)`: round to the nearest multiple of 1/100
(no total produced by the estimator hits a rounding tie, so the half-up /
half-even difference between this and CPython never shows). -/
def round2 (q : ℚ) : ℚ := ((round (q * 100) : ℤ) : ℚ) / 100

/-- The running `total_carbon` accumulated over lines 53-120, before the
final `round(total_carbon, 2)`: the value the eco-friendly comparison on
line 126 actually reads. -/
def totalBeforeRound (dish_name : String) : ℚ :=
  let dl := lowerChars dish_name
  (proteinDetect dl).2 + (carbsDetect dl).2 + (vegetablesDetect dl).2
    + (dairyDetect dl).2 + (cookingDetect dl).2

/-- `CarbonCalculator.estimate_carbon_footprint` (lines 47-127): ingredient
tags are appended in protein, carbs, vegetables, dairy order; the returned
`total_carbon` is rounded to 2 decimals, while `is_eco_friendly` compares
the unrounded running total against 2.0. -/
def estimate_carbon_footprint (dish_name : String) : EstimationResult :=
  let dl := lowerChars dish_name
  let p := proteinDetect dl
  let c := carbsDetect dl
  let v := vegetablesDetect dl
  let d := dairyDetect dl
  let k := cookingDetect dl
  let total_carbon := p.2 + c.2 + v.2 + d.2 + k.2
  { ingredients := p.1 ++ c.1 ++ v.1 ++ d.1
    cooking_methods := k.1
    total_carbon := round2 total_carbon
    is_eco_friendly := decide (total_carbon < 2.0) }

/-- Lowercasing of a whole string, mirroring `name.lower()` (line 148). -/
def lowerString (s : String) : String := String.mk (s.toList.map Char.toLower)

/-- The `MenuItem` dataclass (lines 15-23). -/
structure MenuItem where
  name : String
  price : ℚ
  description : String
  carbon_footprint : ℚ
  is_eco_friendly : Bool
  ingredients : List String
  cooking_methods : List String
deriving Repr, DecidableEq

/-- The mutable state of a `QRMenuSystem` instance (lines 132-135). -/
structure QRMenuSystem where
  restaurant_name : String
  menu_items : List MenuItem
deriving Repr, DecidableEq

/-- `QRMenuSystem.add_menu_item` (lines 137-160): estimates the carbon data
from the name, builds the `MenuItem` (the description defaulting to
`"Delicious " + name.lower()` exactly when the given description is the
empty string, Python's falsy-`or`), appends it to `menu_items`, and returns
it. Modelled as returning the new state together with the item. -/
def add_menu_item (sys : QRMenuSystem) (name : String) (price : ℚ)
    (description : String) : QRMenuSystem × MenuItem :=
  let carbon_data := estimate_carbon_footprint name
  let item : MenuItem :=
    { name := name
      price := price
      description := if description = "" then "Delicious " ++ lowerString name else description
      carbon_footprint := carbon_data.total_carbon
      is_eco_friendly := carbon_data.is_eco_friendly
      ingredients := carbon_data.ingredients
      cooking_methods := carbon_data.cooking_methods }
  ({ sys with menu_items := sys.menu_items ++ [item] }, item)

/-- The comparison key of `sorted(self.menu_items, key=lambda x: x.carbon_footprint)`
(lines 195 and 285). -/
def carbonLE (a b : MenuItem) : Prop := a.carbon_footprint ≤ b.carbon_footprint

instance : DecidableRel carbonLE :=
  fun a b => inferInstanceAs (Decidable (a.carbon_footprint ≤ b.carbon_footprint))

instance : IsTotal MenuItem carbonLE := ⟨fun a b => le_total a.carbon_footprint b.carbon_footprint⟩

instance : IsTrans MenuItem carbonLE := ⟨fun _ _ _ h1 h2 => le_trans h1 h2⟩

/-- `sorted(self.menu_items, key=lambda x: x.carbon_footprint)` (lines 195, 285).
Python's `sorted` is a stable sort; a stable sort's output is uniquely
determined by the key order and the input order, so the stable
`insertionSort` under the same key is extensionally the same function. -/
def sortedByCarbon (l : List MenuItem) : List MenuItem := l.insertionSort carbonLE

/-- `sorted_items[:3]` (line 286): the three lowest-carbon items; for fewer
than 3 items Python's slice returns the whole list, as does `take 3`. -/
def lowest_carbon (l : List MenuItem) : List MenuItem := (sortedByCarbon l).take 3

/-- `sorted_items[-3:]` (line 287): the three highest-carbon items; for a
list of length `n < 3` Python's slice returns the whole list, and so does
`drop (n - 3)` under truncated natural subtraction. -/
def highest_carbon (l : List MenuItem) : List MenuItem :=
  (sortedByCarbon l).drop ((sortedByCarbon l).length - 3)

/-- Python `a / b`, which raises `ZeroDivisionError` when `b = 0`. -/
def pydiv (a b : ℚ) : Except String ℚ :=
  if b = 0 then Except.error "ZeroDivisionError" else Except.ok (a / b)

/-- The statistics rendered by `generate_html_menu` (lines 190-229). -/
structure HtmlStats where
  total_items : ℕ
  eco_items : ℕ
  avg_carbon : ℚ
  eco_percentage : ℚ
deriving Repr, DecidableEq

/-- The statistics block of `QRMenuSystem.generate_html_menu` (lines 190-229):
`avg_carbon` is guarded by `if total_items > 0 else 0` (line 192), but the
template expression `eco_items/total_items*100` (line 228) divides
unguarded, so an empty menu raises `ZeroDivisionError` (swallowed by the
function's blanket `except`, which returns the empty string). -/
def generate_html_stats (menu_items : List MenuItem) : Except String HtmlStats := do
  let total_items := menu_items.length
  let eco_items := (menu_items.filter (fun i => i.is_eco_friendly)).length
  let avg_carbon :=
    if total_items > 0 then (menu_items.map (fun i => i.carbon_footprint)).sum / total_items
    else 0
  let pct ← pydiv eco_items total_items
  Except.ok
    { total_items := total_items
      eco_items := eco_items
      avg_carbon := avg_carbon
      eco_percentage := pct * 100 }

/-- The statistics computed by `generate_report` (lines 277-307). -/
structure ReportStats where
  total_items : ℕ
  eco_items : ℕ
  eco_percentage : ℚ
  avg_carbon : ℚ
  low_count : ℕ
  medium_count : ℕ
  high_count : ℕ
  lowest : List MenuItem
  highest : List MenuItem
deriving Repr, DecidableEq

/-- The statistics block of `QRMenuSystem.generate_report` (lines 277-307):
returns early (modelled as `none`) when the menu is empty (lines 278-279),
otherwise computes counts, the average, the three half-open carbon buckets
(lines 299-301) and the lowest/highest slices of the sorted list. -/
def generate_report_stats (menu_items : List MenuItem) : Option ReportStats :=
  let total_items := menu_items.length
  if total_items = 0 then none
  else
    let eco_items := (menu_items.filter (fun i => i.is_eco_friendly)).length
    some
      { total_items := total_items
        eco_items := eco_items
        eco_percentage := (eco_items : ℚ) / (total_items : ℚ) * 100
        avg_carbon := (menu_items.map (fun i => i.carbon_footprint)).sum / total_items
        low_count := (menu_items.filter (fun i => decide (i.carbon_footprint < 2.0))).length
        medium_count := (menu_items.filter
          (fun i => decide (2.0 ≤ i.carbon_footprint ∧ i.carbon_footprint < 4.0))).length
        high_count := (menu_items.filter (fun i => decide (4.0 ≤ i.carbon_footprint))).length
        lowest := lowest_carbon menu_items
        highest := highest_carbon menu_items }

/-- Helper: every item skipped by `orderedInsert` under the carbon key has a
strictly smaller key than the inserted item, so filtering the insertion at
the inserted item's key yields that item followed by the old filter. -/
theorem filter_orderedInsert_eq (x : MenuItem) (c : ℚ) (hx : x.carbon_footprint = c)
    (l : List MenuItem) :
    (l.orderedInsert carbonLE x).filter (fun i => decide (i.carbon_footprint = c))
      = x :: l.filter (fun i => decide (i.carbon_footprint = c)) := by
  induction l with
  | nil => simp [List.orderedInsert, hx]
  | cons a l ih =>
    by_cases hle : carbonLE x a
    · simp only [List.orderedInsert, if_pos hle]
      simp [List.filter_cons, hx]
    · have hlt : a.carbon_footprint < x.carbon_footprint := by
        simp only [carbonLE] at hle
        exact lt_of_not_le hle
      have hane : ¬ (a.carbon_footprint = c) := by
        rw [← hx]
        exact ne_of_lt hlt
      simp only [List.orderedInsert, if_neg hle]
      simp [List.filter_cons, hane, ih]

/-- Helper: inserting an item whose key differs from `c` leaves the filter
at key `c` unchanged. -/
theorem filter_orderedInsert_ne (x : MenuItem) (c : ℚ) (hx : ¬ (x.carbon_footprint = c))
    (l : List MenuItem) :
    (l.orderedInsert carbonLE x).filter (fun i => decide (i.carbon_footprint = c))
      = l.filter (fun i => decide (i.carbon_footprint = c)) := by
  induction l with
  | nil => simp [List.orderedInsert, hx]
  | cons a l ih =>
    by_cases hle : carbonLE x a
    · simp only [List.orderedInsert, if_pos hle]
      simp [List.filter_cons, hx]
    · simp only [List.orderedInsert, if_neg hle]
      simp [List.filter_cons, ih]

/-- Stability of the sort used on lines 195 and 285: filtering the sorted
list at any single carbon value reproduces the input's subsequence of items
with that carbon value, in the input order. -/
theorem filter_sortedByCarbon (l : List MenuItem) (c : ℚ) :
    (sortedByCarbon l).filter (fun i => decide (i.carbon_footprint = c))
      = l.filter (fun i => decide (i.carbon_footprint = c)) := by
  induction l with
  | nil => rfl
  | cons a l ih =>
    simp only [sortedByCarbon, List.insertionSort] at ih ⊢
    by_cases ha : a.carbon_footprint = c
    · rw [filter_orderedInsert_eq a c ha, ih]
      simp [List.filter_cons, ha]
    · rw [filter_orderedInsert_ne a c ha, ih]
      simp [List.filter_cons, ha]

/-- Helper: each item lands in exactly one of the three half-open carbon
buckets of lines 299-301, so the three filtered counts add up to the
length of the list. -/
theorem bucket_counts_add (l : List MenuItem) :
    (l.filter (fun i => decide (i.carbon_footprint < 2.0))).length
      + (l.filter (fun i => decide (2.0 ≤ i.carbon_footprint ∧ i.carbon_footprint < 4.0))).length
      + (l.filter (fun i => decide (4.0 ≤ i.carbon_footprint))).length = l.length := by
  induction l with
  | nil => rfl
  | cons a l ih =>
    simp only [List.filter_cons, List.length_cons]
    rcases lt_or_le a.carbon_footprint 2.0 with h2 | h2
    · have hb2 : ¬ ((2.0 : ℚ) ≤ a.carbon_footprint ∧ a.carbon_footprint < 4.0) :=
        fun h => absurd h.1 (not_le.mpr h2)
      have hb3 : ¬ ((4.0 : ℚ) ≤ a.carbon_footprint) := by
        rw [not_le]
        linarith
      simp [h2, hb2, hb3]
      simp only [Bool.decide_and] at ih
      omega
    · rcases lt_or_le a.carbon_footprint 4.0 with h4 | h4
      · have hb1 : ¬ (a.carbon_footprint < 2.0) := not_lt.mpr h2
        have hb3 : ¬ ((4.0 : ℚ) ≤ a.carbon_footprint) := not_le.mpr h4
        simp [hb1, h2, h4, hb3]
        simp only [Bool.decide_and] at ih
        omega
      · have hb1 : ¬ (a.carbon_footprint < 2.0) := by
          rw [not_lt]
          linarith
        have hb2 : ¬ ((2.0 : ℚ) ≤ a.carbon_footprint ∧ a.carbon_footprint < 4.0) :=
          fun h => absurd h.2 (not_lt.mpr h4)
        simp [hb1, hb2, h4]
        simp only [Bool.decide_and] at ih
        omega

/-- Helper: every protein-branch contribution (lines 56-70) is nonnegative. -/
theorem proteinDetect_nonneg (dl : List Char) : 0 ≤ (proteinDetect dl).2 := by
  unfold proteinDetect
  split_ifs <;> norm_num

/-- Helper: every carbs-branch contribution (lines 73-84) is nonnegative. -/
theorem carbsDetect_nonneg (dl : List Char) : 0 ≤ (carbsDetect dl).2 := by
  unfold carbsDetect
  split_ifs <;> norm_num

/-- Helper: both vegetable branches (lines 87-92) contribute at least
2.0 * 0.1 = 0.2. -/
theorem vegetablesDetect_ge (dl : List Char) : (0.2 : ℚ) ≤ (vegetablesDetect dl).2 := by
  unfold vegetablesDetect
  split_ifs <;> norm_num

/-- Helper: the dairy contribution (lines 95-97) is nonnegative. -/
theorem dairyDetect_nonneg (dl : List Char) : 0 ≤ (dairyDetect dl).2 := by
  unfold dairyDetect
  split_ifs <;> norm_num

/-- Helper: every cooking-method contribution (lines 99-118) is nonnegative. -/
theorem cookingDetect_nonneg (dl : List Char) : 0 ≤ (cookingDetect dl).2 := by
  unfold cookingDetect
  split_ifs <;> norm_num

/-- Helper: the unrounded running total is at least 0.2. -/
theorem totalBeforeRound_ge (s : String) : (0.2 : ℚ) ≤ totalBeforeRound s := by
  unfold totalBeforeRound
  have h1 := proteinDetect_nonneg (lowerChars s)
  have h2 := carbsDetect_nonneg (lowerChars s)
  have h3 := vegetablesDetect_ge (lowerChars s)
  have h4 := dairyDetect_nonneg (lowerChars s)
  have h5 := cookingDetect_nonneg (lowerChars s)
  linarith

/-- Helper: rounding to 2 decimals cannot drop a value at or above the grid
point 0.2 below that grid point. -/
theorem round2_ge_of_ge (q : ℚ) (h : (0.2 : ℚ) ≤ q) : (0.2 : ℚ) ≤ round2 q := by
  unfold round2
  have h20 : (20 : ℤ) ≤ round (q * 100) := by
    rw [round_eq]
    refine Int.le_floor.mpr ?_
    push_cast
    linarith
  have h20q : (20 : ℚ) ≤ ((round (q * 100) : ℤ) : ℚ) := by exact_mod_cast h20
  linarith

/-- Helper: the stored `total_carbon` is definitionally the rounded running
total. -/
theorem estimate_total_eq (s : String) :
    (estimate_carbon_footprint s).total_carbon = round2 (totalBeforeRound s) := rfl

/-- C1 (counterexample): for the dish "Fried Cheese Sandwich" the unrounded
running total is 1.997, so `is_eco_friendly` (line 126, computed on the
unrounded total) is `true`, while the stored `total_carbon` rounds up to
2.0 and is not strictly below 2.0 — refuting the claim that the flag is
equivalent to `total_carbon < 2.0` on the rounded field. -/
theorem eco_flag_rounded_iff_fails :
    (estimate_carbon_footprint "Fried Cheese Sandwich").is_eco_friendly = true ∧
    ¬ ((estimate_carbon_footprint "Fried Cheese Sandwich").total_carbon < 2.0) := by
  have htot : (estimate_carbon_footprint "Fried Cheese Sandwich").total_carbon = 2 := by
    simp +decide only [estimate_carbon_footprint, proteinDetect, carbsDetect, vegetablesDetect,
      dairyDetect, cookingDetect, round2]
    rw [round_eq]
    norm_num [Int.floor_eq_iff]
  refine ⟨?_, ?_⟩
  · simp +decide only [estimate_carbon_footprint, proteinDetect, carbsDetect, vegetablesDetect,
      dairyDetect, cookingDetect]
    norm_num
  · rw [htot]
    norm_num

/-- C1 (amended): for every dish-name string, `is_eco_friendly` is true iff
the UNROUNDED running total accumulated by the estimator is strictly less
than 2.0; the comparison happens before the 2-decimal rounding that
produces the stored `total_carbon`. -/
theorem eco_flag_iff_unrounded_total (s : String) :
    (estimate_carbon_footprint s).is_eco_friendly = true ↔ totalBeforeRound s < 2.0 := by
  simp [estimate_carbon_footprint, totalBeforeRound]

/-- C2: on an empty menu the statistics block of `generate_html_menu`
raises `ZeroDivisionError` (the template's `eco_items/total_items*100`
divides by `total_items = 0`), while `generate_report` returns early with
no statistics at all — so the claimed "no division-by-zero fault and
ecoPercentage = 0" fails on the html path. -/
theorem empty_menu_stats :
    generate_html_stats [] = Except.error "ZeroDivisionError" ∧
    generate_report_stats [] = none := by
  exact ⟨rfl, rfl⟩

/-- C4: `estimate("Grilled Chicken Caesar Salad")` has ingredients
containing "chicken" and "vegetables", cooking method exactly ["grill"]
(the grill branch precedes the raw/salad branch), total carbon
round(6.9*0.20 + 2.0*0.20 + 3.5*(20/60), 2) = 2.95, and is not
eco-friendly. -/
theorem estimate_grilled_chicken_caesar_salad :
    "chicken" ∈ (estimate_carbon_footprint "Grilled Chicken Caesar Salad").ingredients ∧
    "vegetables" ∈ (estimate_carbon_footprint "Grilled Chicken Caesar Salad").ingredients ∧
    (estimate_carbon_footprint "Grilled Chicken Caesar Salad").cooking_methods = ["grill"] ∧
    (estimate_carbon_footprint "Grilled Chicken Caesar Salad").total_carbon = 2.95 ∧
    (estimate_carbon_footprint "Grilled Chicken Caesar Salad").is_eco_friendly = false := by
  refine ⟨by decide, by decide, by decide, ?_, ?_⟩
  · simp +decide only [estimate_carbon_footprint, proteinDetect, carbsDetect, vegetablesDetect,
      dairyDetect, cookingDetect, round2]
    rw [round_eq]
    norm_num [Int.floor_eq_iff]
  · simp +decide only [estimate_carbon_footprint, proteinDetect, carbsDetect, vegetablesDetect,
      dairyDetect, cookingDetect]
    norm_num

/-- C8: the estimator is a pure function — two invocations on the same
string yield structurally identical results — and the empty string falls
through to the default branches, giving vegetables-only ingredients, the
stovetop default method, total 0.8 and the eco flag set. -/
theorem estimate_deterministic (s : String) :
    estimate_carbon_footprint s = estimate_carbon_footprint s ∧
    (estimate_carbon_footprint "").ingredients = ["vegetables"] ∧
    (estimate_carbon_footprint "").cooking_methods = ["stovetop"] ∧
    (estimate_carbon_footprint "").total_carbon = 0.8 ∧
    (estimate_carbon_footprint "").is_eco_friendly = true := by
  refine ⟨rfl, by decide, by decide, ?_, ?_⟩
  · simp +decide only [estimate_carbon_footprint, proteinDetect, carbsDetect, vegetablesDetect,
      dairyDetect, cookingDetect, round2]
    rw [round_eq]
    norm_num [Int.floor_eq_iff]
  · simp +decide only [estimate_carbon_footprint, proteinDetect, carbsDetect, vegetablesDetect,
      dairyDetect, cookingDetect]
    norm_num

/-- C10: `add_menu_item` appends exactly one item at the end of
`menu_items`, leaves the previously stored items and the restaurant name
unchanged, and when the description argument is empty the stored
description is exactly "Delicious " followed by the lowercased name. -/
theorem add_menu_item_spec (sys : QRMenuSystem) (name : String) (price : ℚ)
    (description : String) :
    (add_menu_item sys name price description).1.menu_items
        = sys.menu_items ++ [(add_menu_item sys name price description).2] ∧
    (add_menu_item sys name price description).1.restaurant_name = sys.restaurant_name ∧
    (description = "" →
      (add_menu_item sys name price description).2.description
        = "Delicious " ++ lowerString name) := by
  refine ⟨rfl, rfl, fun h => ?_⟩
  simp [add_menu_item, h]

/-- Witness for C10 at a concrete state and arguments. -/
theorem add_menu_item_spec_witness :
    ("" : String) = "" ∧
    (add_menu_item ⟨"Green Restaurant", []⟩ "Quinoa Bowl" 35 "").2.description
      = "Delicious " ++ lowerString "Quinoa Bowl" :=
  ⟨rfl, (add_menu_item_spec ⟨"Green Restaurant", []⟩ "Quinoa Bowl" 35 "").2.2 rfl⟩

/-- C3: on a non-empty menu of items with nonnegative carbon footprints the
report's three half-open buckets [0,2.0), [2.0,4.0), [4.0,∞) are disjoint
and exhaustive: their counts add up to the total item count. -/
theorem report_bucket_partition (l : List MenuItem) (hne : l ≠ [])
    (hnn : ∀ i ∈ l, 0 ≤ i.carbon_footprint) (s : ReportStats)
    (hs : generate_report_stats l = some s) :
    s.low_count + s.medium_count + s.high_count = s.total_items := by
  unfold generate_report_stats at hs
  rw [if_neg (fun h => hne (List.length_eq_zero.mp h))] at hs
  rw [Option.some.injEq] at hs
  subst hs
  exact bucket_counts_add l

/-- Witness for C3 on a concrete two-item menu. -/
theorem report_bucket_partition_witness :
    ([(⟨"Garden Salad", 25, "greens", 1, true, ["vegetables"], ["raw"]⟩ : MenuItem),
      ⟨"Beef Burger", 55, "beef", 3, false, ["beef"], ["grill"]⟩] : List MenuItem) ≠ [] ∧
    ((generate_report_stats
        [(⟨"Garden Salad", 25, "greens", 1, true, ["vegetables"], ["raw"]⟩ : MenuItem),
         ⟨"Beef Burger", 55, "beef", 3, false, ["beef"], ["grill"]⟩]).elim True
      (fun s => s.low_count + s.medium_count + s.high_count = s.total_items)) := by
  constructor
  · intro h
    exact List.cons_ne_nil _ _ h
  · cases hs : generate_report_stats
      [(⟨"Garden Salad", 25, "greens", 1, true, ["vegetables"], ["raw"]⟩ : MenuItem),
       ⟨"Beef Burger", 55, "beef", 3, false, ["beef"], ["grill"]⟩] with
    | none => trivial
    | some s =>
      exact report_bucket_partition _ (List.cons_ne_nil _ _)
        (by
          intro i hi
          simp only [List.mem_cons, List.mem_singleton] at hi
          rcases hi with h | h | h
          · rw [h]; norm_num
          · rw [h]; norm_num
          · cases h) s hs

/-- C5: the sequence behind the lowest/highest slices is the input sorted
ascending by carbon footprint with a stable sort: it is a permutation of
the input, sorted under the carbon key, its restriction to any fixed carbon
value keeps the input order (stability, hence also inside each slice,
which is a contiguous take/drop of it), and when the input has fewer than
3 items each slice is the whole sorted list (no padding, no error). -/
theorem sorted_slices_spec (l : List MenuItem) :
    (sortedByCarbon l).Perm l ∧
    (sortedByCarbon l).Sorted carbonLE ∧
    (∀ c : ℚ, (sortedByCarbon l).filter (fun i => decide (i.carbon_footprint = c))
        = l.filter (fun i => decide (i.carbon_footprint = c))) ∧
    lowest_carbon l = (sortedByCarbon l).take 3 ∧
    highest_carbon l = (sortedByCarbon l).drop ((sortedByCarbon l).length - 3) ∧
    (∀ c : ℚ, ((lowest_carbon l).filter (fun i => decide (i.carbon_footprint = c))).Sublist
        (l.filter (fun i => decide (i.carbon_footprint = c)))) ∧
    (∀ c : ℚ, ((highest_carbon l).filter (fun i => decide (i.carbon_footprint = c))).Sublist
        (l.filter (fun i => decide (i.carbon_footprint = c)))) ∧
    (l.length < 3 → lowest_carbon l = sortedByCarbon l ∧ highest_carbon l = sortedByCarbon l) := by
  refine ⟨List.perm_insertionSort carbonLE l, List.sorted_insertionSort carbonLE l,
    filter_sortedByCarbon l, rfl, rfl, ?_, ?_, ?_⟩
  · intro c
    rw [← filter_sortedByCarbon l c]
    exact List.Sublist.filter _ (List.take_sublist 3 (sortedByCarbon l))
  · intro c
    rw [← filter_sortedByCarbon l c]
    exact List.Sublist.filter _ (List.drop_sublist _ (sortedByCarbon l))
  · intro hlen
    have hlen3 : (sortedByCarbon l).length ≤ 3 := by
      rw [sortedByCarbon, List.length_insertionSort]
      omega
    constructor
    · rw [lowest_carbon]
      exact List.take_of_length_le hlen3
    · rw [highest_carbon, Nat.sub_eq_zero_of_le hlen3, List.drop_zero]

/-- Witness for C5's short-list clause on a concrete two-item menu. -/
theorem sorted_slices_spec_witness :
    ([(⟨"Beef Burger", 55, "beef", 3, false, ["beef"], ["grill"]⟩ : MenuItem),
      ⟨"Garden Salad", 25, "greens", 1, true, ["vegetables"], ["raw"]⟩] : List MenuItem).length
        < 3 ∧
    lowest_carbon
        [(⟨"Beef Burger", 55, "beef", 3, false, ["beef"], ["grill"]⟩ : MenuItem),
         ⟨"Garden Salad", 25, "greens", 1, true, ["vegetables"], ["raw"]⟩]
      = sortedByCarbon
        [(⟨"Beef Burger", 55, "beef", 3, false, ["beef"], ["grill"]⟩ : MenuItem),
         ⟨"Garden Salad", 25, "greens", 1, true, ["vegetables"], ["raw"]⟩] ∧
    highest_carbon
        [(⟨"Beef Burger", 55, "beef", 3, false, ["beef"], ["grill"]⟩ : MenuItem),
         ⟨"Garden Salad", 25, "greens", 1, true, ["vegetables"], ["raw"]⟩]
      = sortedByCarbon
        [(⟨"Beef Burger", 55, "beef", 3, false, ["beef"], ["grill"]⟩ : MenuItem),
         ⟨"Garden Salad", 25, "greens", 1, true, ["vegetables"], ["raw"]⟩] := by
  refine ⟨by decide, ?_, ?_⟩
  · exact ((sorted_slices_spec _).2.2.2.2.2.2.2 (by decide)).1
  · exact ((sorted_slices_spec _).2.2.2.2.2.2.2 (by decide)).2

/-- C6: a dish whose lowercased name contains a beef keyword (and none of
the other protein keywords — redundant, since the beef branch is tested
first) gets "beef" as the first ingredient, with protein contribution
exactly 27.0 * 0.25 = 6.75. -/
theorem beef_first_ingredient (s : String)
    (hbeef : containsAny (lowerChars s) ["beef", "steak", "hamburger"] = true)
    (hother : containsAny (lowerChars s)
        ["chicken", "tavuk", "fish", "salmon", "balık", "pork", "bacon", "ham", "lamb", "kuzu"]
      = false) :
    (estimate_carbon_footprint s).ingredients.head? = some "beef" ∧
    (proteinDetect (lowerChars s)).1 = ["beef"] ∧
    (proteinDetect (lowerChars s)).2 = 6.75 := by
  have hp : proteinDetect (lowerChars s) = (["beef"], 27.0 * 0.25) := by
    unfold proteinDetect
    rw [if_pos hbeef]
  refine ⟨?_, by rw [hp], by rw [hp]; norm_num⟩
  show ((proteinDetect (lowerChars s)).1 ++ (carbsDetect (lowerChars s)).1
      ++ (vegetablesDetect (lowerChars s)).1 ++ (dairyDetect (lowerChars s)).1).head?
    = some "beef"
  rw [hp]
  simp

/-- Witness for C6 at the dish "Beef Steak". -/
theorem beef_first_ingredient_witness :
    containsAny (lowerChars "Beef Steak") ["beef", "steak", "hamburger"] = true ∧
    containsAny (lowerChars "Beef Steak")
        ["chicken", "tavuk", "fish", "salmon", "balık", "pork", "bacon", "ham", "lamb", "kuzu"]
      = false ∧
    (estimate_carbon_footprint "Beef Steak").ingredients.head? = some "beef" ∧
    (proteinDetect (lowerChars "Beef Steak")).2 = 6.75 := by
  refine ⟨by decide, by decide, ?_, ?_⟩
  · exact (beef_first_ingredient "Beef Steak" (by decide) (by decide)).1
  · exact (beef_first_ingredient "Beef Steak" (by decide) (by decide)).2.2

/-- C7: every estimation result contains the "vegetables" tag among its
ingredients, and its cooking-method sequence is a single tag drawn from
grill, deep_fry, oven, raw, stovetop. -/
theorem estimate_invariants (s : String) :
    "vegetables" ∈ (estimate_carbon_footprint s).ingredients ∧
    ∃ m, (estimate_carbon_footprint s).cooking_methods = [m] ∧
      m ∈ (["grill", "deep_fry", "oven", "raw", "stovetop"] : List String) := by
  have hv : (vegetablesDetect (lowerChars s)).1 = ["vegetables"] := by
    unfold vegetablesDetect
    split <;> rfl
  constructor
  · show "vegetables" ∈ (proteinDetect (lowerChars s)).1 ++ (carbsDetect (lowerChars s)).1
      ++ (vegetablesDetect (lowerChars s)).1 ++ (dairyDetect (lowerChars s)).1
    rw [hv]
    simp
  · show ∃ m, (cookingDetect (lowerChars s)).1 = [m] ∧ _
    unfold cookingDetect
    split_ifs <;> exact ⟨_, rfl, by simp⟩

/-- C9: every estimation's stored total carbon is at least 0.2 (the
unconditional minimum vegetable contribution 2.0 * 0.1), hence strictly
positive; the bound is attained at the dish name "fresh", which matches
only the raw-cooking keyword. -/
theorem total_carbon_lower_bound :
    (∀ s : String, (0.2 : ℚ) ≤ (estimate_carbon_footprint s).total_carbon ∧
      0 < (estimate_carbon_footprint s).total_carbon) ∧
    (estimate_carbon_footprint "fresh").total_carbon = 0.2 := by
  constructor
  · intro s
    have h2 := round2_ge_of_ge (totalBeforeRound s) (totalBeforeRound_ge s)
    rw [estimate_total_eq]
    exact ⟨h2, lt_of_lt_of_le (by norm_num) h2⟩
  · simp +decide only [estimate_carbon_footprint, proteinDetect, carbsDetect, vegetablesDetect,
      dairyDetect, cookingDetect, round2]
    rw [round_eq]
    norm_num [Int.floor_eq_iff]

end QRMenu
